import Mathlib

/-!
Shallow embedding of the Reddit monitoring pipeline
(`reddit_client.py`, `data_processor.py`, `monitor.py`, `config.py`).

Python floats are modelled as exact rationals (`ℚ`); all concrete inputs used
in the theorems below take values on which float arithmetic is exact.
Python strings are ASCII in every input considered, so `Char.toLower` /
`Char.toUpper` agree with `str.lower()` / `str.upper()`.
-/

set_option maxRecDepth 2000

namespace RedditApp

/-! ### Python string primitives -/

/-- Python `s.lower()` (ASCII). -/
def lowerChars (cs : List Char) : List Char := cs.map Char.toLower

/-- Python `s.upper()` (ASCII). -/
def upperChars (cs : List Char) : List Char := cs.map Char.toUpper

/-- Python `needle in hay` substring test. -/
def isSubstrOf (needle : List Char) : List Char → Bool
  | [] => needle.isEmpty
  | c :: t => needle.isPrefixOf (c :: t) || isSubstrOf needle t

/-- Python whitespace for `str.split()` (ASCII whitespace). -/
def isSpaceChar (c : Char) : Bool :=
  c = ' ' || c = '\t' || c = '\n' || c = '\r' || c = '\x0b' || c = '\x0c'

/-- Helper for `countWords`: `prevSpace` records whether the previous
character was whitespace (or we are at the start). -/
def countWordsAux : Bool → List Char → Nat
  | _, [] => 0
  | prevSpace, c :: rest =>
      (if prevSpace && !isSpaceChar c then 1 else 0) + countWordsAux (isSpaceChar c) rest

/-- Python `len(s.split())`: the number of maximal runs of non-whitespace characters. -/
def countWords (cs : List Char) : Nat := countWordsAux true cs

/-- Number of start positions (overlapping) at which `needle` occurs in the text. -/
def countOccurrencesOf (needle : List Char) : List Char → Nat
  | [] => if needle.isEmpty then 1 else 0
  | c :: rest =>
      (if needle.isPrefixOf (c :: rest) then 1 else 0) + countOccurrencesOf needle rest

/-- Python `max(a, b)` on rationals. -/
def pyMax (a b : ℚ) : ℚ := if a ≤ b then b else a

/-- Python `min(a, b)` on rationals. -/
def pyMin (a b : ℚ) : ℚ := if b ≤ a then b else a

/-- Round-half-even to an integer (Python `round` on values that are exactly
representable, which holds for every concrete input below). -/
def roundHalfEven (q : ℚ) : ℤ :=
  let f := ⌊q⌋
  let r := q - f
  if r < 1/2 then f
  else if 1/2 < r then f + 1
  else if f % 2 = 0 then f else f + 1

/-- Python `round(q, 2)`. -/
def roundTo2 (q : ℚ) : ℚ := (roundHalfEven (q * 100) : ℚ) / 100

/-- Python `round(q, 3)`. -/
def roundTo3 (q : ℚ) : ℚ := (roundHalfEven (q * 1000) : ℚ) / 1000

/-! ### Data model (`reddit_client.py` `RedditPost` dataclass) -/

structure RedditPost where
  id : String
  title : String
  author : String
  subreddit : String
  score : Int
  upvoteRatio : ℚ
  numComments : Int
  createdUtc : ℚ
  url : String
  selftext : String
  flair : Option String
  stickied : Bool
  over18 : Bool
  category : String
  timestampCollected : ℚ
  deriving DecidableEq

/-- Source `RedditPost.is_recent`: `(now - created_utc) <= hours * 3600`. -/
def is_recent (p : RedditPost) (hours : ℚ) (now : ℚ) : Bool :=
  now - p.createdUtc ≤ hours * 3600

/-- Source `RedditPost.meets_criteria`: `score >= min_score and num_comments >= min_comments`. -/
def meets_criteria (p : RedditPost) (minScore minComments : Int) : Bool :=
  minScore ≤ p.score && minComments ≤ p.numComments

/-- The combined text `title ++ " " ++ selftext` of a post, as a character list. -/
def combinedContent (p : RedditPost) : List Char :=
  (p.title ++ " " ++ p.selftext).data

/-! ### Configuration (`config.py`) -/

def MIN_SCORE : Int := 10
def MIN_COMMENTS : Int := 5
def MAX_AGE_HOURS : ℚ := 24
def DATA_RETENTION_HOURS : ℚ := 24

def SPECULATIVE_KEYWORDS : List String :=
  ["yolo", "moon", "rocket", "diamond hands", "hodl", "squeeze",
   "gamma", "short interest", "DD", "due diligence", "calls", "puts"]

/-! ### Classifier (`data_processor.py`) -/

/-- The compiled speculative regex is `'|'.join(SPECULATIVE_KEYWORDS)` with
`re.IGNORECASE`; every keyword is a literal (no metacharacters), so `search`
succeeds iff some keyword occurs case-insensitively as a substring. -/
def speculativeKeywordHit (content : List Char) : Bool :=
  SPECULATIVE_KEYWORDS.any (fun k => isSubstrOf (lowerChars k.data) content)

def options_keywords : List String := ["calls", "puts", "strike", "expiry", "iv", "theta"]

def optionsKeywordHit (content : List Char) : Bool :=
  options_keywords.any (fun k => isSubstrOf k.data content)

/-- Source `DataProcessor.is_speculative_post`. -/
def is_speculative_post (now : ℚ) (p : RedditPost) : Bool :=
  let content := lowerChars (combinedContent p)
  if speculativeKeywordHit content then true
  else if p.score > 100 && p.numComments > 50 then
    if (now - p.createdUtc) / 3600 < 6 then true
    else optionsKeywordHit content
  else optionsKeywordHit content

def positive_words : List String :=
  ["buy", "bull", "moon", "rocket", "strong", "growth", "profit"]

def negative_words : List String :=
  ["sell", "bear", "crash", "dump", "loss", "decline", "drop"]

/-- Source `DataProcessor._analyze_sentiment`: returns the score recorded in
`sentiment_scores[post.id]`, or `none` when `total_words == 0` (no record).
`sum(1 for word in words if word in content)` counts each keyword at most
once (presence, not multiplicity). -/
def analyze_sentiment (p : RedditPost) : Option ℚ :=
  let content := lowerChars (combinedContent p)
  let positive_score : Nat := positive_words.countP (fun w => isSubstrOf w.data content)
  let negative_score : Nat := negative_words.countP (fun w => isSubstrOf w.data content)
  let total_words := countWords content
  if 0 < total_words then
    some (pyMax (-1) (pyMin 1
      (((positive_score : ℚ) - (negative_score : ℚ)) / pyMax ((total_words : ℚ) / 10) 1)))
  else none

/-! ### Ticker extraction (`DataProcessor._extract_tickers`) -/

def isUpperAZ (c : Char) : Bool := 'A' ≤ c && c ≤ 'Z'

/-- Python `re` word character (ASCII): `[A-Za-z0-9_]`. -/
def isWordChar (c : Char) : Bool := c.isAlpha || c.isDigit || c = '_'

/-- Word boundary immediately after a run of letters: end of input or a
non-word character. -/
def boundaryAfter : List Char → Bool
  | [] => true
  | d :: _ => !isWordChar d

/-- Python `re.findall` of the compiled pattern `\$([A-Z]{1,5})\b`.

At each `'$'` the greedy `[A-Z]{1,5}` with the trailing `\b` matches exactly
when the maximal uppercase run after the `'$'` has length 1..5 and is followed
by end-of-input or a non-word character (backtracking to a shorter run always
places the boundary between two word characters and fails).  After a match the
scan resumes past the captured run; otherwise at the next character. -/
def findTickersAux : Nat → List Char → List String
  | 0, _ => []
  | _, [] => []
  | fuel + 1, c :: rest =>
    if c = '$' then
      let run := rest.takeWhile isUpperAZ
      if 1 ≤ run.length ∧ run.length ≤ 5 ∧ boundaryAfter (rest.drop run.length) then
        String.mk run :: findTickersAux fuel (rest.drop run.length)
      else
        findTickersAux fuel rest
    else findTickersAux fuel rest

/-- Entry point: every step consumes at least one character, so `cs.length`
units of fuel are always sufficient. -/
def findTickers (cs : List Char) : List String := findTickersAux cs.length cs

/-- Python `Counter[t] += 1`. -/
def counterAdd (c : String → Nat) (t : String) : String → Nat :=
  fun x => if x = t then c x + 1 else c x

/-- Source `DataProcessor._extract_tickers`: one counter increment per regex match
(the `len(ticker) <= 5` guard is kept from the source; it is always true). -/
def extract_tickers (c : String → Nat) (p : RedditPost) : String → Nat :=
  (findTickers (upperChars (combinedContent p))).foldl
    (fun acc t => if t.length ≤ 5 then counterAdd acc t else acc) c

-- scratch sanity checks (removed in the final file if they churn)
example : findTickers (upperChars ("Bullish on $AAPL and $TSLA, also $F").data)
    = ["AAPL", "TSLA", "F"] := by decide

example : countWords ("buy buy".data) = 2 := by decide

/-! ### Association-list helpers (Python `dict` / `defaultdict`) -/

/-- Python `d.get(k, dflt)` on an association list. -/
def getAssocD {α : Type} (k : String) (d : α) : List (String × α) → α
  | [] => d
  | e :: t => if e.1 = k then e.2 else getAssocD k d t

/-- Python `defaultdict` in-place update: mutate the entry for `k` (creating it from
the default on first access). -/
def updAssocD {α : Type} (k : String) (f : α → α) (d : α) :
    List (String × α) → List (String × α)
  | [] => [(k, f d)]
  | e :: t => if e.1 = k then (e.1, f e.2) :: t else e :: updAssocD k f d t

/-! ### Aggregator state (`DataProcessor`) -/

/-- Entry appended to `subreddit_activity[...]['posts']`: note `timestamp`
stores the post's `created_utc`, not its collection time. -/
structure PostSummary where
  id : String
  score : Int
  comments : Int
  timestamp : ℚ
  deriving DecidableEq

/-- One value of the `subreddit_activity` defaultdict. -/
structure SubActivity where
  posts : List PostSummary
  total_score : Int
  total_comments : Int
  speculative_count : Nat
  deriving DecidableEq

def SubActivity.dflt : SubActivity := ⟨[], 0, 0, 0⟩

/-- Mutable state of `DataProcessor`.  `sentiment_scores` is an association
list where an assignment shadows (prepends) older entries; lookups take the
first hit, matching `dict` overwrite semantics. -/
structure ProcState where
  posts_buffer : List RedditPost
  ticker_mentions : String → Nat
  sentiment_scores : List (String × ℚ)
  subreddit_activity : List (String × SubActivity)

def initialProcState : ProcState := ⟨[], fun _ => 0, [], []⟩

/-- Source `DataProcessor._update_subreddit_activity`. -/
def update_subreddit_activity (now : ℚ) (acts : List (String × SubActivity))
    (p : RedditPost) : List (String × SubActivity) :=
  updAssocD p.subreddit (fun a =>
    { a with
      posts := a.posts ++ [⟨p.id, p.score, p.numComments, p.createdUtc⟩]
      total_score := a.total_score + p.score
      total_comments := a.total_comments + p.numComments
      speculative_count :=
        a.speculative_count + (if is_speculative_post now p then 1 else 0) })
    SubActivity.dflt acts

/-- Per-post body of the loop in `DataProcessor.add_posts`. -/
def processOnePost (now : ℚ) (st : ProcState) (p : RedditPost) : ProcState :=
  { st with
    ticker_mentions := extract_tickers st.ticker_mentions p
    sentiment_scores :=
      match analyze_sentiment p with
      | some v => (p.id, v) :: st.sentiment_scores
      | none => st.sentiment_scores
    subreddit_activity := update_subreddit_activity now st.subreddit_activity p }

/-- Source `DataProcessor.add_posts`: extend the buffer, then process each post. -/
def add_posts (now : ℚ) (st : ProcState) (posts : List RedditPost) : ProcState :=
  posts.foldl (processOnePost now)
    { st with posts_buffer := st.posts_buffer ++ posts }

/-- Source `DataProcessor._cleanup_old_data`: the global buffer is filtered on
`timestamp_collected`, the per-subreddit summaries on their stored
`timestamp` (which is `created_utc`); `total_score`, `total_comments` and
`speculative_count` are left untouched. -/
def cleanup_old_data (retentionHours now : ℚ) (st : ProcState) : ProcState :=
  let cutoff := now - retentionHours * 3600
  { st with
    posts_buffer := st.posts_buffer.filter (fun p => cutoff < p.timestampCollected)
    subreddit_activity := st.subreddit_activity.map (fun e =>
      (e.1, { e.2 with posts := e.2.posts.filter (fun s => cutoff < s.timestamp) })) }

/-! ### Subreddit insights (`DataProcessor.get_subreddit_insights`) -/

def SUBREDDITS : List (String × List String) :=
  [("yolo_meme", ["wallstreetbets"]),
   ("serious_investing", ["stocks", "investing"]),
   ("speculative", ["pennystocks"]),
   ("value_oriented", ["UndervaluedStonks", "ValueInvesting"]),
   ("options_focus", ["options"]),
   ("trading", ["trading", "technicalanalysis", "daytrading"]),
   ("sector_specific", ["stockmarket", "biotech_stocks", "SecurityAnalysis"])]

/-- Source `DataProcessor._get_subreddit_category`. -/
def get_subreddit_category (subreddit : String) : String :=
  match SUBREDDITS.find? (fun e =>
      (e.2.map (fun s => lowerChars s.data)).contains (lowerChars subreddit.data)) with
  | some e => e.1
  | none => "other"

/-- One entry of the insights dict.  `specShare` is the source's
`speculative_ratio` field. -/
structure SubInsight where
  totalPosts : Nat
  avgScore : ℚ
  avgComments : ℚ
  specShare : ℚ
  recentActivity : Nat
  category : String
  deriving DecidableEq

def subInsightOf (now : ℚ) (subreddit : String) (a : SubActivity) : SubInsight :=
  { totalPosts := a.posts.length
    avgScore := roundTo2 ((a.total_score : ℚ) / (a.posts.length : ℚ))
    avgComments := roundTo2 ((a.total_comments : ℚ) / (a.posts.length : ℚ))
    specShare := roundTo3 ((a.speculative_count : ℚ) / (a.posts.length : ℚ))
    recentActivity := (a.posts.filter (fun s => now - s.timestamp < 3600)).length
    category := get_subreddit_category subreddit }

/-- Source `DataProcessor.get_subreddit_insights`: subreddits with an empty summary
list are skipped (`continue`), not reported as zero. -/
def get_subreddit_insights (now : ℚ) (st : ProcState) : List (String × SubInsight) :=
  (st.subreddit_activity.filter (fun e => !e.2.posts.isEmpty)).map
    (fun e => (e.1, subInsightOf now e.1 e.2))

/-! ### Activity summary (`DataProcessor._get_activity_summary`) -/

/-- Python `min(buffer, key=lambda p: p.timestamp_collected)`: Python `min` keeps the
first element among ties, replacing only on a strictly smaller key. -/
def minByCollected (p : RedditPost) (ps : List RedditPost) : RedditPost :=
  ps.foldl (fun acc q => if q.timestampCollected < acc.timestampCollected then q else acc) p

/-- The un-rounded `posting_rate` computed in `_get_activity_summary`:
`(total_posts / max(time_span / 3600, 1)) if time_span > 0 else 0`,
and `0` for an empty buffer. -/
def posting_rate (now : ℚ) (buffer : List RedditPost) : ℚ :=
  match buffer with
  | [] => 0
  | p :: ps =>
    let oldest := minByCollected p ps
    let timeSpan := now - oldest.timestampCollected
    if 0 < timeSpan then ((p :: ps).length : ℚ) / pyMax (timeSpan / 3600) 1 else 0

/-- The exported `posting_rate_per_hour` field (`round(posting_rate, 2)`). -/
def posting_rate_per_hour (now : ℚ) (buffer : List RedditPost) : ℚ :=
  roundTo2 (posting_rate now buffer)

/-! ### Priority filtering -/

/-- Source `DataProcessor._is_trending_post`. -/
def is_trending_post (now : ℚ) (p : RedditPost) : Bool :=
  let age := (now - p.createdUtc) / 3600
  if age < 1 then p.score > 50 || p.numComments > 20
  else if age < 6 then p.score > 200 || p.numComments > 75
  else false

/-- Search driver for patterns beginning with `\b` followed by a word
character: try a match at every position whose predecessor is not a word
character. -/
def searchBoundary (pat : List Char → Bool) : Bool → List Char → Bool
  | _, [] => false
  | prevWord, c :: rest =>
      (!prevWord && pat (c :: rest)) || searchBoundary pat (isWordChar c) rest

/-- Literal match followed by a `\b`. -/
def litWithBoundary (lit : List Char) (cs : List Char) : Bool :=
  lit.isPrefixOf cs && boundaryAfter (cs.drop lit.length)

/-- Tail `(calls?|puts?)\b` of the options-mention pattern. -/
def optionsTailHit (cs : List Char) : Bool :=
  litWithBoundary "calls".data cs || litWithBoundary "call".data cs ||
  litWithBoundary "puts".data cs || litWithBoundary "put".data cs

/-- Match of `[A-Z]{1,5}\s+(calls?|puts?)\b` anchored at the current position
(the leading `\b` is handled by `searchBoundary`).  The greedy `[A-Z]{1,5}`
must take the whole uppercase run: a shorter take leaves an uppercase letter
where `\s` is required. -/
def matchOptionsMentionAt (cs : List Char) : Bool :=
  let r := (cs.takeWhile isUpperAZ).length
  if 1 ≤ r ∧ r ≤ 5 then
    let rest := cs.drop r
    let w := (rest.takeWhile isSpaceChar).length
    decide (0 < w) && optionsTailHit (rest.drop w)
  else false

/-- Match of `[A-Z]{1,5}\b` anchored at the current position: as for `findTickers`,
the maximal uppercase run must have length 1..5 and be followed by a
non-word character or the end. -/
def upperRunWithBoundary (cs : List Char) : Bool :=
  let r := (cs.takeWhile isUpperAZ).length
  decide (1 ≤ r ∧ r ≤ 5) && boundaryAfter (cs.drop r)

/-- One alternative `verb\s+[A-Z]{1,5}\b` anchored at the current position. -/
def verbThenTicker (verb : List Char) (cs : List Char) : Bool :=
  verb.isPrefixOf cs &&
    (let rest := cs.drop verb.length
     let w := (rest.takeWhile isSpaceChar).length
     decide (0 < w) && upperRunWithBoundary (rest.drop w))

/-- Match of `(buy|sell|hold)\s+[A-Z]{1,5}\b` anchored at the current
position (leading `\b` handled by `searchBoundary`). -/
def matchTradeRecAt (cs : List Char) : Bool :=
  verbThenTicker "buy".data cs || verbThenTicker "sell".data cs ||
  verbThenTicker "hold".data cs

/-- Python `re.search` over the three `PRIORITY_PATTERNS` of `config.py`:
`\$[A-Z]{1,5}\b`, `\b[A-Z]{1,5}\s+(calls?|puts?)\b`,
`\b(buy|sell|hold)\s+[A-Z]{1,5}\b` — applied to the raw (un-lowercased)
combined text. -/
def priorityPatternHit (content : List Char) : Bool :=
  !(findTickers content).isEmpty ||
  searchBoundary matchOptionsMentionAt false content ||
  searchBoundary matchTradeRecAt false content

/-- Modelled from the spec: `DataProcessor.filter_priority_posts` (spec §4.3
"Priority flag").  The function body in `data_processor.py` lines 128-149 is
syntactically invalid Python — the `elif` on line 142 directly follows a
`for` loop, so importing the module raises `SyntaxError` and the function can
never run.  The intended chain, per the spec and the repository's own
`test_filter_priority_posts`, is: keep a post when a priority regex matches,
`elif score > 500 or num_comments > 200`, `elif` it is trending. -/
def filter_priority_posts (now : ℚ) (posts : List RedditPost) : List RedditPost :=
  posts.filter (fun p =>
    priorityPatternHit (combinedContent p) || p.score > 500 || p.numComments > 200 ||
      is_trending_post now p)

/-! ### Monitor (`monitor.py` `RedditMonitor`) -/

structure SubStats where
  total_posts : Nat
  hot_posts : Nat
  speculative_posts : Nat
  last_activity : ℚ
  deriving DecidableEq

def SubStats.dflt : SubStats := ⟨0, 0, 0, 0⟩

/-- Mutable state of `RedditMonitor`: `seen_post_ids` is a Python `set`
(modelled as a duplicate-free list — an id is only added after a failed
membership test), `post_buffer` is `deque(maxlen=10000)`. -/
structure MonitorState where
  seenPostIds : List String
  postBuffer : List RedditPost
  subredditStats : List (String × SubStats)
  processor : ProcState

def initialMonitorState : MonitorState := ⟨[], [], [], initialProcState⟩

/-- Python `deque(maxlen=m)` append: once full, the oldest (leftmost) element is
discarded.  A deque never holds more than `m` elements, so an append pops at
most one element from the left. -/
def dequeAppendMax (m : Nat) (buf : List RedditPost) (p : RedditPost) : List RedditPost :=
  let b := buf ++ [p]
  if b.length ≤ m then b else b.tail

/-- The `subreddit_stats` update performed for each accepted post. -/
def updateSubStats (now : ℚ) (postType : String) (speculative : Bool)
    (stats : List (String × SubStats)) (subreddit : String) : List (String × SubStats) :=
  updAssocD subreddit (fun s =>
    { s with
      total_posts := s.total_posts + 1
      last_activity := now
      hot_posts := s.hot_posts + (if postType = "hot" then 1 else 0)
      speculative_posts := s.speculative_posts + (if speculative then 1 else 0) })
    SubStats.dflt stats

/-- Loop body of `RedditMonitor._process_posts`: skip posts already seen, too
old, or below the engagement thresholds; otherwise record the id as seen,
buffer the post, update the stats and collect it into `new_posts`. -/
def processPostsStep (now : ℚ) (postType subreddit : String)
    (acc : MonitorState × List RedditPost) (p : RedditPost) : MonitorState × List RedditPost :=
  let st := acc.1
  if p.id ∈ st.seenPostIds then acc
  else if !(is_recent p MAX_AGE_HOURS now) then acc
  else if !(meets_criteria p MIN_SCORE MIN_COMMENTS) then acc
  else
    ({ st with
        seenPostIds := st.seenPostIds ++ [p.id]
        postBuffer := dequeAppendMax 10000 st.postBuffer p
        subredditStats :=
          updateSubStats now postType (is_speculative_post now p) st.subredditStats subreddit },
     acc.2 ++ [p])

/-- Source `RedditMonitor._process_posts` followed by `_handle_new_posts`: the batch
of accepted posts is handed to `DataProcessor.add_posts` (the priority filter
inside `_handle_new_posts` only feeds logging). -/
def process_posts (now : ℚ) (st : MonitorState) (posts : List RedditPost)
    (postType subreddit : String) : MonitorState :=
  let r := posts.foldl (processPostsStep now postType subreddit) (st, [])
  if r.2.isEmpty then r.1
  else { r.1 with processor := add_posts now r.1.processor r.2 }

/-- One monitoring run: a sequence of fetched batches, each tagged with its
listing type and subreddit, processed in order from the fresh state. -/
def runPipeline (now : ℚ) (batches : List (List RedditPost × String × String)) : MonitorState :=
  batches.foldl (fun st b => process_posts now st b.1 b.2.1 b.2.2) initialMonitorState

/-! ### Reddit clients (`reddit_client.py`) -/

/-- The praw/asyncpraw submission fields read by `_post_to_dataclass`. -/
structure Submission where
  id : String
  title : String
  author : Option String
  subreddit : String
  score : Int
  upvote_ratio : ℚ
  num_comments : Int
  created_utc : ℚ
  url : String
  selftext : String
  link_flair_text : Option String
  stickied : Bool
  over_18 : Bool
  deriving DecidableEq

/-- Source `RedditClient._post_to_dataclass` (the async variant builds the identical
record): `now` stands for the `time.time()` call. -/
def post_to_dataclass (now : ℚ) (category : String) (s : Submission) : RedditPost :=
  { id := s.id
    title := s.title
    author := match s.author with | some a => a | none => "[deleted]"
    subreddit := s.subreddit
    score := s.score
    upvoteRatio := s.upvote_ratio
    numComments := s.num_comments
    createdUtc := s.created_utc
    url := s.url
    selftext := s.selftext
    flair := s.link_flair_text
    stickied := s.stickied
    over18 := s.over_18
    category := category
    timestampCollected := now }

/-- Source `RedditClient.get_hot_posts` applied to the raw listing: pinned
(`stickied`) submissions are skipped. -/
def get_hot_posts (now : ℚ) (category : String) (raws : List Submission) : List RedditPost :=
  (raws.filter (fun s => !s.stickied)).map (post_to_dataclass now category)

/-- Source `RedditClient.get_new_posts`: no stickied filter. -/
def get_new_posts (now : ℚ) (category : String) (raws : List Submission) : List RedditPost :=
  raws.map (post_to_dataclass now category)

/-- Source `RedditClient.get_rising_posts`: pinned submissions are skipped. -/
def get_rising_posts (now : ℚ) (category : String) (raws : List Submission) : List RedditPost :=
  (raws.filter (fun s => !s.stickied)).map (post_to_dataclass now category)

/-- Source `AsyncRedditClient.get_hot_posts`: same stickied filter as the sync
client.  (`AsyncRedditClient` defines no rising getter.) -/
def async_get_hot_posts (now : ℚ) (category : String) (raws : List Submission) : List RedditPost :=
  (raws.filter (fun s => !s.stickied)).map (post_to_dataclass now category)

/-- Source `AsyncRedditClient.get_new_posts`: no stickied filter. -/
def async_get_new_posts (now : ℚ) (category : String) (raws : List Submission) : List RedditPost :=
  raws.map (post_to_dataclass now category)

/-! ### Claim-stated variants (used only to compare spec wording with the
source behaviour) -/

/-- The claim's speculative keyword list: it omits the source's
`'due diligence'` entry. -/
def CLAIM_SPECULATIVE_KEYWORDS : List String :=
  ["yolo", "moon", "rocket", "diamond hands", "hodl", "squeeze",
   "gamma", "short interest", "DD", "calls", "puts"]

/-- The speculative predicate exactly as claim C4 states it (conditions (a),
(b), (c) with the 11-keyword list). -/
def claimSpeculative (now : ℚ) (p : RedditPost) : Bool :=
  let content := lowerChars (combinedContent p)
  CLAIM_SPECULATIVE_KEYWORDS.any (fun k => isSubstrOf (lowerChars k.data) content)
  || (p.score > 100 && p.numComments > 50 && decide ((now - p.createdUtc) / 3600 < 6))
  || optionsKeywordHit content

/-- The sentiment formula exactly as claim C6 states it: `pos_count` and
`neg_count` count *occurrences* of the keywords (multiplicity), not merely
which keywords are present. -/
def claimSentiment (p : RedditPost) : Option ℚ :=
  let content := lowerChars (combinedContent p)
  let pos : Nat := (positive_words.map (fun w => countOccurrencesOf w.data content)).sum
  let neg : Nat := (negative_words.map (fun w => countOccurrencesOf w.data content)).sum
  let total := countWords content
  if 0 < total then
    some (pyMax (-1) (pyMin 1 (((pos : ℚ) - (neg : ℚ)) / pyMax ((total : ℚ) / 10) 1)))
  else none

/-- Ticker counting exactly as claim C7 states it: the matched tokens are
deduped within a single post before being counted. -/
def claimTickerCounts (c : String → Nat) (p : RedditPost) : String → Nat :=
  ((findTickers (upperChars (combinedContent p))).dedup).foldl
    (fun acc t => if t.length ≤ 5 then counterAdd acc t else acc) c

/-! ### Concrete inputs used by the theorems -/

/-- A reference instant (in seconds, like `time.time()`). -/
def tNow : ℚ := 360000

/-- Claim C4's first example: body containing "YOLO", title "GME to the moon". -/
def yoloPost : RedditPost :=
  { id := "yolo1", title := "GME to the moon", author := "u", subreddit := "wallstreetbets"
    score := 10, upvoteRatio := 1, numComments := 5, createdUtc := tNow - 1800
    url := "", selftext := "Going full YOLO here", flair := none, stickied := false
    over18 := false, category := "yolo_meme", timestampCollected := tNow }

/-- Claim C4's second example: no speculative keywords, score 50, age 10 h. -/
def earningsPost : RedditPost :=
  { id := "earn1", title := "Quarterly earnings review", author := "u", subreddit := "stocks"
    score := 50, upvoteRatio := 1, numComments := 10, createdUtc := tNow - 36000
    url := "", selftext := "", flair := none, stickied := false
    over18 := false, category := "serious_investing", timestampCollected := tNow }

/-- C4 counterexample input: contains the source keyword "due diligence" but
none of the claim's keywords, low engagement, 10 h old. -/
def dueDiligencePost : RedditPost :=
  { id := "dd1", title := "My due diligence notes", author := "u", subreddit := "stocks"
    score := 0, upvoteRatio := 1, numComments := 0, createdUtc := tNow - 36000
    url := "", selftext := "", flair := none, stickied := false
    over18 := false, category := "serious_investing", timestampCollected := tNow }

/-- C6 counterexample input: "buy" occurs four times among 24 words. -/
def buyPost : RedditPost :=
  { id := "buy1", title := "buy buy buy buy", author := "u", subreddit := "stocks"
    score := 10, upvoteRatio := 1, numComments := 5, createdUtc := tNow - 3600
    url := "", selftext := "a a a a a a a a a a a a a a a a a a a a", flair := none
    stickied := false, over18 := false, category := "serious_investing"
    timestampCollected := tNow }

/-- C7 example input from the claim. -/
def bullishPost : RedditPost :=
  { id := "bull1", title := "Bullish on $AAPL and $TSLA, also $F", author := "u"
    subreddit := "stocks", score := 10, upvoteRatio := 1, numComments := 5
    createdUtc := tNow - 3600, url := "", selftext := "", flair := none, stickied := false
    over18 := false, category := "serious_investing", timestampCollected := tNow }

/-- C7 counterexample input: the same ticker mentioned twice in one post. -/
def dupTickerPost : RedditPost :=
  { id := "dup1", title := "$AAPL $AAPL", author := "u", subreddit := "stocks"
    score := 10, upvoteRatio := 1, numComments := 5, createdUtc := tNow - 3600
    url := "", selftext := "", flair := none, stickied := false
    over18 := false, category := "serious_investing", timestampCollected := tNow }

/-- C3 counterexample: an old high-score post (created 25 h ago, hence pruned
from the per-subreddit summaries) plus two fresh posts with scores 100, 200. -/
def oldScorePost : RedditPost :=
  { id := "c3old", title := "old entry", author := "u", subreddit := "stocks"
    score := 1000, upvoteRatio := 1, numComments := 40, createdUtc := tNow - 90000
    url := "", selftext := "", flair := none, stickied := false
    over18 := false, category := "serious_investing", timestampCollected := tNow - 90000 }

def score100Post : RedditPost :=
  { id := "c3a", title := "first entry", author := "u", subreddit := "stocks"
    score := 100, upvoteRatio := 1, numComments := 20, createdUtc := tNow - 3600
    url := "", selftext := "", flair := none, stickied := false
    over18 := false, category := "serious_investing", timestampCollected := tNow - 3600 }

def score200Post : RedditPost :=
  { id := "c3b", title := "second entry", author := "u", subreddit := "stocks"
    score := 200, upvoteRatio := 1, numComments := 50, createdUtc := tNow - 3600
    url := "", selftext := "", flair := none, stickied := false
    over18 := false, category := "serious_investing", timestampCollected := tNow - 3600 }

/-- C8 counterexample: a single post collected exactly at the current instant
(`time_span = 0`). -/
def justCollectedPost : RedditPost :=
  { id := "c8a", title := "fresh entry", author := "u", subreddit := "stocks"
    score := 20, upvoteRatio := 1, numComments := 6, createdUtc := tNow
    url := "", selftext := "", flair := none, stickied := false
    over18 := false, category := "serious_investing", timestampCollected := tNow }

/-- C9 counterexample: collected 23 h ago (inside the 24 h window) but created
25 h ago (outside it). -/
def lateCollectedPost : RedditPost :=
  { id := "c9a", title := "late entry", author := "u", subreddit := "stocks"
    score := 30, upvoteRatio := 1, numComments := 8, createdUtc := tNow - 90000
    url := "", selftext := "", flair := none, stickied := false
    over18 := false, category := "serious_investing", timestampCollected := tNow - 82800 }

/-! C1 scenario: three posts, one per listing type, two sharing an id. -/

def scenP1 : RedditPost :=
  { id := "a", title := "first", author := "u", subreddit := "stocks"
    score := 50, upvoteRatio := 1, numComments := 10, createdUtc := tNow - 1000
    url := "", selftext := "", flair := none, stickied := false
    over18 := false, category := "serious_investing", timestampCollected := tNow }

def scenP2 : RedditPost := { scenP1 with title := "second" }

def scenP3 : RedditPost := { scenP1 with id := "b", title := "third" }

def scenarioBatches : List (List RedditPost × String × String) :=
  [([scenP1], "hot", "stocks"), ([scenP2], "new", "stocks"), ([scenP3], "rising", "stocks")]

/-! C2 counterexample: a stream of distinct acceptable posts. -/

/-- Pairwise-distinct post ids (distinguished by length). -/
def natId (i : Nat) : String := String.mk (List.replicate i 'a')

def mkPost (i : Nat) : RedditPost :=
  { id := natId i, title := "t", author := "u", subreddit := "s"
    score := 50, upvoteRatio := 1, numComments := 10, createdUtc := 0
    url := "", selftext := "", flair := none, stickied := false
    over18 := false, category := "other", timestampCollected := 0 }

def mkPosts (n : Nat) : List RedditPost := (List.range n).map mkPost

/-- C5: the three posts of the repository's own `test_filter_priority_posts`. -/
def highScorePost : RedditPost :=
  { id := "high_score", title := "Market analysis", author := "user", subreddit := "stocks"
    score := 600, upvoteRatio := 4/5, numComments := 50, createdUtc := tNow
    url := "http://test.com", selftext := "Analysis", flair := none, stickied := false
    over18 := false, category := "serious_investing", timestampCollected := tNow }

def highCommentsPost : RedditPost :=
  { id := "high_comments", title := "Discussion thread", author := "user"
    subreddit := "investing", score := 100, upvoteRatio := 4/5, numComments := 250
    createdUtc := tNow, url := "http://test.com", selftext := "Discussion", flair := none
    stickied := false, over18 := false, category := "serious_investing"
    timestampCollected := tNow }

def regularPost : RedditPost :=
  { id := "regular", title := "Normal post", author := "user", subreddit := "stocks"
    score := 50, upvoteRatio := 4/5, numComments := 10, createdUtc := tNow
    url := "http://test.com", selftext := "Content", flair := none, stickied := false
    over18 := false, category := "serious_investing", timestampCollected := tNow }

/-- C10: a pinned and an unpinned raw submission. -/
def stickiedSub : Submission :=
  { id := "s1", title := "announcement", author := some "mod", subreddit := "stocks"
    score := 1, upvote_ratio := 1, num_comments := 0, created_utc := 0
    url := "", selftext := "", link_flair_text := none, stickied := true, over_18 := false }

def plainSub : Submission :=
  { id := "s2", title := "ordinary", author := some "u", subreddit := "stocks"
    score := 1, upvote_ratio := 1, num_comments := 0, created_utc := 0
    url := "", selftext := "", link_flair_text := none, stickied := false, over_18 := false }

/-- Python `dict` lookup (`d.get(k)`), first hit wins. -/
def dictFind? : List (String × ℚ) → String → Option ℚ
  | [], _ => none
  | e :: t, k => if e.1 = k then some e.2 else dictFind? t k

/-- Fold of `_update_subreddit_activity` over a list of accepted posts,
starting from the empty activity table. -/
def activityAfter (now : ℚ) (posts : List RedditPost) : List (String × SubActivity) :=
  posts.foldl (update_subreddit_activity now) []

/-- A processor state holding one post collected 25 h ago and one collected
23 h ago. -/
def c9State : ProcState := ⟨[oldScorePost, lateCollectedPost], fun _ => 0, [], []⟩

/-- Verification invariant: the ids aggregated by the processor are pairwise
distinct and every aggregated id has been recorded as seen. -/
def MonitorInv (st : MonitorState) : Prop :=
  (st.processor.posts_buffer.map RedditPost.id).Nodup
    ∧ ∀ p ∈ st.processor.posts_buffer, p.id ∈ st.seenPostIds

/-- Verification invariant for the accumulator of the fold inside
`_process_posts`, relative to the state `st0` at the start of the batch. -/
def BatchInv (st0 : MonitorState) (acc : MonitorState × List RedditPost) : Prop :=
  (∀ x ∈ st0.seenPostIds, x ∈ acc.1.seenPostIds)
    ∧ (acc.2.map RedditPost.id).Nodup
    ∧ (∀ p ∈ acc.2, p.id ∈ acc.1.seenPostIds ∧ p.id ∉ st0.seenPostIds)
    ∧ acc.1.processor = st0.processor

/-! ## Theorems -/

/-! ### Shared lemmas -/

/-- Every token produced by the ticker scanner has length at most 5. -/
theorem findTickersAux_mem_length :
    ∀ (fuel : Nat) (cs : List Char) (s : String),
      s ∈ findTickersAux fuel cs → s.length ≤ 5 := by
  intro fuel
  induction fuel with
  | zero => intro cs s h; simp [findTickersAux] at h
  | succ n ih =>
    intro cs s h
    cases cs with
    | nil => simp [findTickersAux] at h
    | cons c rest =>
      simp only [findTickersAux] at h
      split at h
      · split at h
        · rename_i hguard
          rcases List.mem_cons.mp h with rfl | hmem
          · exact hguard.2.1
          · exact ih _ s hmem
        · exact ih _ s h
      · exact ih _ s h

/-- Folding the counter update over a list of short tokens adds the
occurrence count of each key. -/
theorem foldl_tickerCount :
    ∀ (l : List String) (c : String → Nat) (t : String),
      (∀ s ∈ l, s.length ≤ 5) →
      l.foldl (fun acc u => if u.length ≤ 5 then counterAdd acc u else acc) c t
        = c t + l.count t := by
  intro l
  induction l with
  | nil => intro c t _; simp
  | cons a l ih =>
    intro c t h
    have ha : a.length ≤ 5 := h a (List.mem_cons_self a l)
    simp only [List.foldl_cons, if_pos ha]
    rw [ih (counterAdd c a) t (fun s hs => h s (List.mem_cons_of_mem a hs))]
    by_cases hta : t = a
    · subst hta
      simp [counterAdd, List.count_cons]
      omega
    · simp [counterAdd, hta, List.count_cons, Ne.symm hta]

/-- Python `defaultdict` update/lookup round trip at the updated key. -/
theorem getAssocD_updAssocD {α : Type} (k : String) (f : α → α) (d : α) :
    ∀ l : List (String × α), getAssocD k d (updAssocD k f d l) = f (getAssocD k d l) := by
  intro l
  induction l with
  | nil => simp [updAssocD, getAssocD]
  | cons e t ih =>
    by_cases he : e.1 = k
    · simp [updAssocD, getAssocD, he]
    · simp [updAssocD, getAssocD, he, ih]

/-- Folding `_update_subreddit_activity` over posts of a single subreddit
accumulates the score sum and the summary count. -/
theorem activity_fold_totals :
    ∀ (posts : List RedditPost) (now : ℚ) (sub : String)
      (acts : List (String × SubActivity)),
      (∀ p ∈ posts, p.subreddit = sub) →
      (getAssocD sub SubActivity.dflt
            (posts.foldl (update_subreddit_activity now) acts)).total_score
          = (getAssocD sub SubActivity.dflt acts).total_score
              + (posts.map RedditPost.score).sum
        ∧ (getAssocD sub SubActivity.dflt
            (posts.foldl (update_subreddit_activity now) acts)).posts.length
          = (getAssocD sub SubActivity.dflt acts).posts.length + posts.length := by
  intro posts
  induction posts with
  | nil => intro now sub acts _; simp
  | cons p ps ih =>
    intro now sub acts h
    have hp : p.subreddit = sub := h p (List.mem_cons_self p ps)
    have hrest : ∀ q ∈ ps, q.subreddit = sub := fun q hq => h q (List.mem_cons_of_mem p hq)
    have hstep := ih now sub (update_subreddit_activity now acts p) hrest
    have hupd :
        getAssocD sub SubActivity.dflt (update_subreddit_activity now acts p)
          = (fun a : SubActivity =>
              { a with
                posts := a.posts ++ [⟨p.id, p.score, p.numComments, p.createdUtc⟩]
                total_score := a.total_score + p.score
                total_comments := a.total_comments + p.numComments
                speculative_count :=
                  a.speculative_count + (if is_speculative_post now p then 1 else 0) })
              (getAssocD sub SubActivity.dflt acts) := by
      unfold update_subreddit_activity
      rw [hp]
      exact getAssocD_updAssocD sub _ SubActivity.dflt acts
    constructor
    · rw [List.foldl_cons, hstep.1, hupd]
      simp only [List.map_cons, List.sum_cons]
      omega
    · rw [List.foldl_cons, hstep.2, hupd]
      simp only [List.length_cons, List.length_append, List.length_cons]
      simp
      omega

/-- Generic foldl invariant preservation. -/
theorem foldl_preserve {α β : Type} (P : α → Prop) (f : α → β → α) :
    ∀ (l : List β) (a : α), P a → (∀ x b, P x → P (f x b)) → P (l.foldl f a) := by
  intro l
  induction l with
  | nil => intro a h _; exact h
  | cons b t ih => intro a h hs; exact ih (f a b) (hs a b h) hs

/-- A bounded deque append never exceeds the capacity. -/
theorem dequeAppendMax_length_le (m : Nat) (buf : List RedditPost) (p : RedditPost)
    (h : buf.length ≤ m) : (dequeAppendMax m buf p).length ≤ m := by
  unfold dequeAppendMax
  dsimp only
  split
  · assumption
  · next hgt =>
    simp only [List.length_tail, List.length_append, List.length_cons, List.length_nil]
    simp only [List.length_append, List.length_cons, List.length_nil] at hgt
    omega

/-- A full bounded deque evicts its oldest (leftmost) element on append. -/
theorem dequeAppendMax_full (m : Nat) (b : RedditPost) (rest : List RedditPost)
    (p : RedditPost) (h : (b :: rest).length = m) :
    dequeAppendMax m (b :: rest) p = rest ++ [p] := by
  unfold dequeAppendMax
  dsimp only
  rw [List.cons_append]
  rw [if_neg ?hgt]
  · rfl
  case hgt =>
    simp only [List.length_cons, List.length_append, List.length_nil]
    simp only [List.length_cons] at h
    omega

/-- The per-post step never removes an id from the seen set. -/
theorem step_seen_mono (now : ℚ) (ty sub : String) (acc : MonitorState × List RedditPost)
    (p : RedditPost) (x : String) (hx : x ∈ acc.1.seenPostIds) :
    x ∈ (processPostsStep now ty sub acc p).1.seenPostIds := by
  obtain ⟨st, np⟩ := acc
  unfold processPostsStep
  dsimp only at hx ⊢
  split
  · exact hx
  · split
    · exact hx
    · split
      · exact hx
      · exact List.mem_append_left _ hx

/-- The per-post step keeps the ring buffer within its capacity. -/
theorem step_buffer_le (now : ℚ) (ty sub : String) (acc : MonitorState × List RedditPost)
    (p : RedditPost) (h : acc.1.postBuffer.length ≤ 10000) :
    (processPostsStep now ty sub acc p).1.postBuffer.length ≤ 10000 := by
  obtain ⟨st, np⟩ := acc
  unfold processPostsStep
  dsimp only at h ⊢
  split
  · exact h
  · split
    · exact h
    · split
      · exact h
      · exact dequeAppendMax_length_le 10000 st.postBuffer p h

/-- Source `_process_posts` leaves the seen set exactly as the inner fold left it. -/
theorem process_posts_seen (now : ℚ) (st : MonitorState) (posts : List RedditPost)
    (ty sub : String) :
    (process_posts now st posts ty sub).seenPostIds
      = ((posts.foldl (processPostsStep now ty sub) (st, [])).1).seenPostIds := by
  unfold process_posts
  dsimp only
  split <;> rfl

/-- Source `_process_posts` leaves the ring buffer exactly as the inner fold left it. -/
theorem process_posts_postBuffer (now : ℚ) (st : MonitorState) (posts : List RedditPost)
    (ty sub : String) :
    (process_posts now st posts ty sub).postBuffer
      = ((posts.foldl (processPostsStep now ty sub) (st, [])).1).postBuffer := by
  unfold process_posts
  dsimp only
  split <;> rfl

/-- Source `add_posts` extends the aggregation buffer by exactly the batch. -/
theorem add_posts_buffer (now : ℚ) (pst : ProcState) (l : List RedditPost) :
    (add_posts now pst l).posts_buffer = pst.posts_buffer ++ l := by
  unfold add_posts
  have hfold : ∀ (t : List RedditPost) (x : ProcState),
      (t.foldl (processOnePost now) x).posts_buffer = x.posts_buffer := by
    intro t
    induction t with
    | nil => intro x; rfl
    | cons a t ih => intro x; rw [List.foldl_cons, ih]; rfl
  rw [hfold]

/-- The per-post step preserves the batch invariant. -/
theorem step_batchInv (now : ℚ) (ty sub : String) (st0 : MonitorState)
    (acc : MonitorState × List RedditPost) (p : RedditPost)
    (h : BatchInv st0 acc) : BatchInv st0 (processPostsStep now ty sub acc p) := by
  obtain ⟨st, np⟩ := acc
  obtain ⟨hsup, hnd, hmem, hproc⟩ := h
  unfold BatchInv at *
  unfold processPostsStep
  dsimp only at hsup hnd hmem hproc ⊢
  split
  · exact ⟨hsup, hnd, hmem, hproc⟩
  · next hguard =>
    split
    · exact ⟨hsup, hnd, hmem, hproc⟩
    · split
      · exact ⟨hsup, hnd, hmem, hproc⟩
      · refine ⟨fun x hx => List.mem_append_left _ (hsup x hx), ?_, ?_, hproc⟩
        · rw [List.map_append, List.map_singleton]
          refine List.Nodup.append hnd (List.nodup_singleton _) ?_
          intro a ha hb
          rcases List.mem_map.mp ha with ⟨q, hq, rfl⟩
          have hqp : q.id = p.id := List.mem_singleton.mp hb
          exact hguard (hqp ▸ (hmem q hq).1)
        · intro q hq
          rcases List.mem_append.mp hq with hl | hr
          · exact ⟨List.mem_append_left _ (hmem q hl).1, (hmem q hl).2⟩
          · have hqp : q = p := List.mem_singleton.mp hr
            subst hqp
            exact ⟨List.mem_append_right _ (List.mem_singleton_self _),
              fun h0 => hguard (hsup _ h0)⟩

/-- Processing one batch preserves the monitor invariant. -/
theorem process_posts_MonitorInv (now : ℚ) (st : MonitorState)
    (posts : List RedditPost) (ty sub : String) (h : MonitorInv st) :
    MonitorInv (process_posts now st posts ty sub) := by
  have hinv : BatchInv st (posts.foldl (processPostsStep now ty sub) (st, [])) := by
    refine foldl_preserve (BatchInv st) _ posts (st, []) ?_
      (fun x b hx => step_batchInv now ty sub st x b hx)
    exact ⟨fun x hx => hx, List.nodup_nil,
      fun p hp => absurd hp (List.not_mem_nil p), rfl⟩
  obtain ⟨hsup, hnd2, hmem2, hproc⟩ := hinv
  obtain ⟨hnd1, hmem1⟩ := h
  unfold MonitorInv
  unfold process_posts
  dsimp only
  split
  · constructor
    · rw [hproc]
      exact hnd1
    · intro p hp
      rw [hproc] at hp
      exact hsup _ (hmem1 p hp)
  · constructor
    · show ((add_posts now _ _).posts_buffer.map RedditPost.id).Nodup
      rw [add_posts_buffer, hproc, List.map_append]
      refine List.Nodup.append hnd1 hnd2 ?_
      intro a ha hb
      rcases List.mem_map.mp ha with ⟨q, hq, rfl⟩
      rcases List.mem_map.mp hb with ⟨q', hq', heq⟩
      exact (hmem2 q' hq').2 (heq ▸ hmem1 q hq)
    · intro p hp
      show p.id ∈ _
      rw [add_posts_buffer, hproc] at hp
      rcases List.mem_append.mp hp with hl | hr
      · exact hsup _ (hmem1 p hl)
      · exact (hmem2 p hr).1

/-- The monitor invariant holds along any run from the fresh state. -/
theorem runPipeline_MonitorInv (now : ℚ)
    (batches : List (List RedditPost × String × String)) :
    MonitorInv (runPipeline now batches) := by
  unfold runPipeline
  refine foldl_preserve MonitorInv _ batches initialMonitorState
    ⟨List.nodup_nil, fun p hp => absurd hp (List.not_mem_nil p)⟩ ?_
  exact fun st b h => process_posts_MonitorInv now st b.1 b.2.1 b.2.2 h

/-- Distinct indices give distinct generated ids. -/
theorem natId_inj {i j : Nat} (h : natId i = natId j) : i = j := by
  have h2 := congrArg String.data h
  have h3 := congrArg List.length h2
  simpa [natId] using h3

/-- Every generated post is recent at instant 0. -/
theorem mkPost_recent (i : Nat) : is_recent (mkPost i) MAX_AGE_HOURS 0 = true := by
  with_unfolding_all rfl

/-- Every generated post meets the engagement thresholds. -/
theorem mkPost_meets (i : Nat) :
    meets_criteria (mkPost i) MIN_SCORE MIN_COMMENTS = true := by
  with_unfolding_all rfl

/-- A fresh generated post passes every filter and is accepted by the step. -/
theorem mkPost_accept (acc : MonitorState × List RedditPost) (i : Nat)
    (h : natId i ∉ acc.1.seenPostIds) :
    processPostsStep 0 "hot" "s" acc (mkPost i)
      = ({ acc.1 with
            seenPostIds := acc.1.seenPostIds ++ [natId i]
            postBuffer := dequeAppendMax 10000 acc.1.postBuffer (mkPost i)
            subredditStats :=
              updateSubStats 0 "hot" (is_speculative_post 0 (mkPost i))
                acc.1.subredditStats "s" },
          acc.2 ++ [mkPost i]) := by
  unfold processPostsStep
  dsimp only
  rw [if_neg (show ¬((mkPost i).id ∈ acc.1.seenPostIds) from h)]
  simp only [mkPost_recent, mkPost_meets, Bool.not_true, Bool.false_eq_true, if_false]
  rfl

/-- After feeding `n` generated posts, the seen set is exactly the `n`
generated ids, in insertion order. -/
theorem c2_seen :
    ∀ n : Nat,
      (((mkPosts n).foldl (processPostsStep 0 "hot" "s") (initialMonitorState, [])).1).seenPostIds
        = (List.range n).map natId := by
  intro n
  induction n with
  | zero => rfl
  | succ m ih =>
    have hm : mkPosts (m + 1) = mkPosts m ++ [mkPost m] := by
      unfold mkPosts
      rw [List.range_succ, List.map_append, List.map_singleton]
    rw [hm, List.foldl_append, List.foldl_cons, List.foldl_nil]
    have hfresh : natId m ∉
        (((mkPosts m).foldl (processPostsStep 0 "hot" "s")
          (initialMonitorState, [])).1).seenPostIds := by
      rw [ih]
      intro hmem
      rcases List.mem_map.mp hmem with ⟨i, hi, heq⟩
      rw [natId_inj heq] at hi
      exact lt_irrefl m (List.mem_range.mp hi)
    rw [mkPost_accept _ m hfresh]
    dsimp only
    rw [ih, List.range_succ, List.map_append, List.map_singleton]

/-- C4 (amended): `is_speculative_post` is true iff a keyword of the
source's speculative list (which additionally contains "due diligence")
occurs case-insensitively in the combined text, or `score > 100` and
`num_comments > 50` and `age_hours < 6`, or an options-trading term occurs;
in particular the "YOLO … GME to the moon" post is speculative and the
"Quarterly earnings review" post (score 50, age 10 h) is not. -/
theorem C4_theorem :
    (∀ (now : ℚ) (p : RedditPost),
        is_speculative_post now p = true ↔
          (speculativeKeywordHit (lowerChars (combinedContent p)) = true
            ∨ (100 < p.score ∧ 50 < p.numComments ∧ (now - p.createdUtc) / 3600 < 6)
            ∨ optionsKeywordHit (lowerChars (combinedContent p)) = true))
      ∧ is_speculative_post tNow yoloPost = true
      ∧ is_speculative_post tNow earningsPost = false := by
  refine ⟨fun now p => ?_, by with_unfolding_all decide, by with_unfolding_all decide⟩
  unfold is_speculative_post
  by_cases h1 : speculativeKeywordHit (lowerChars (combinedContent p)) = true
  · simp [h1]
  · by_cases h2 : 100 < p.score
    · by_cases h3 : 50 < p.numComments
      · by_cases h4 : (now - p.createdUtc) / 3600 < 6
        · simp [h1, h2, h3, h4]
        · simp [h1, h2, h3, h4]
      · simp [h1, h2, h3]
    · simp [h1, h2]

/-- C4 (counterexample): a post whose text contains "due diligence" but
none of the claim's 11 keywords, with low engagement and age 10 h, is
speculative in the source but not under the claim's characterisation. -/
theorem C4_counterexample :
    is_speculative_post tNow dueDiligencePost = true
      ∧ claimSpeculative tNow dueDiligencePost = false := by
  exact ⟨by with_unfolding_all decide, by with_unfolding_all decide⟩

/-- C5: the intended priority filter (the source text is a Python
`SyntaxError`; the behaviour is modelled from the spec and the repository's
own test) keeps exactly the posts matching a priority regex, or with
`score > 500` or `num_comments > 200`, or trending; on the repository's test
input it keeps exactly the high-score and high-comments posts. -/
theorem C5_theorem :
    (∀ (now : ℚ) (posts : List RedditPost) (p : RedditPost),
        p ∈ filter_priority_posts now posts ↔
          p ∈ posts ∧
            (priorityPatternHit (combinedContent p) = true
              ∨ 500 < p.score ∨ 200 < p.numComments ∨ is_trending_post now p = true))
      ∧ (filter_priority_posts tNow [highScorePost, highCommentsPost, regularPost]).map
          RedditPost.id = ["high_score", "high_comments"] := by
  constructor
  · intro now posts p
    simp only [filter_priority_posts, List.mem_filter, Bool.or_eq_true, decide_eq_true_eq]
    tauto
  · with_unfolding_all decide

/-- C6 (amended): for a post whose combined text has at least one word,
the score recorded under the post's id equals
`(pos - neg) / max(word_count/10, 1)` clamped to `[-1, 1]`, where `pos` and
`neg` count how many keywords of the fixed lists occur at least once
(presence, not occurrence multiplicity). -/
theorem C6_theorem :
    ∀ (now : ℚ) (st : ProcState) (p : RedditPost),
      0 < countWords (lowerChars (combinedContent p)) →
      dictFind? (add_posts now st [p]).sentiment_scores p.id =
        some (pyMax (-1) (pyMin 1
          ((((positive_words.countP
                (fun w => isSubstrOf w.data (lowerChars (combinedContent p)))) : ℚ)
            - ((negative_words.countP
                (fun w => isSubstrOf w.data (lowerChars (combinedContent p)))) : ℚ))
            / pyMax ((countWords (lowerChars (combinedContent p)) : ℚ) / 10) 1))) := by
  intro now st p h
  have ha : analyze_sentiment p =
      some (pyMax (-1) (pyMin 1
        ((((positive_words.countP
              (fun w => isSubstrOf w.data (lowerChars (combinedContent p)))) : ℚ)
          - ((negative_words.countP
              (fun w => isSubstrOf w.data (lowerChars (combinedContent p)))) : ℚ))
          / pyMax ((countWords (lowerChars (combinedContent p)) : ℚ) / 10) 1))) := by
    unfold analyze_sentiment
    rw [if_pos h]
  simp [add_posts, processOnePost, ha, dictFind?]

/-- C6 (witness): instantiating the theorem at the concrete "buy buy buy
buy" post (24 words) yields the recorded score 5/12. -/
theorem C6_witness :
    dictFind? (add_posts tNow initialProcState [buyPost]).sentiment_scores buyPost.id
      = some (5 / 12) := by
  have h := C6_theorem tNow initialProcState buyPost (by decide)
  rw [h]
  with_unfolding_all decide

/-- C6 (counterexample): on the same post the claim's occurrence-counted
formula gives 1 while the source records 5/12. -/
theorem C6_counterexample :
    analyze_sentiment buyPost = some (5 / 12)
      ∧ claimSentiment buyPost = some 1
      ∧ (5 / 12 : ℚ) ≠ 1 := by
  exact ⟨by with_unfolding_all decide, by with_unfolding_all decide,
    by with_unfolding_all decide⟩

/-- C8 (amended): the exported `posting_rate_per_hour` equals
`round(total_posts / max(time_span_hours, 1), 2)` whenever
`time_span = now - oldest collection time` is positive, and is `0` when
`time_span ≤ 0` (in particular at `time_span = 0`) or the buffer is empty. -/
theorem C8_theorem :
    ∀ (now : ℚ) (p : RedditPost) (ps : List RedditPost),
      (0 < now - (minByCollected p ps).timestampCollected →
        posting_rate_per_hour now (p :: ps)
          = roundTo2 (((p :: ps).length : ℚ)
              / pyMax ((now - (minByCollected p ps).timestampCollected) / 3600) 1))
      ∧ (now - (minByCollected p ps).timestampCollected ≤ 0 →
          posting_rate_per_hour now (p :: ps) = 0)
      ∧ posting_rate_per_hour now [] = 0 := by
  intro now p ps
  refine ⟨fun h => ?_, fun h => ?_, ?_⟩
  · simp only [posting_rate_per_hour, posting_rate]
    rw [if_pos h]
  · simp only [posting_rate_per_hour, posting_rate]
    rw [if_neg (not_lt.mpr h)]
    show roundTo2 0 = 0
    with_unfolding_all decide
  · simp only [posting_rate_per_hour, posting_rate]
    show roundTo2 0 = 0
    with_unfolding_all decide

/-- C8 (witness): a buffer holding one post collected an hour ago has
positive time span, so the theorem's first branch applies; the empty-buffer
branch gives 0. -/
theorem C8_witness :
    posting_rate_per_hour tNow [score100Post]
        = roundTo2 ((([score100Post] : List RedditPost).length : ℚ)
            / pyMax ((tNow - (minByCollected score100Post []).timestampCollected) / 3600) 1)
      ∧ posting_rate_per_hour tNow [justCollectedPost] = 0
      ∧ posting_rate_per_hour tNow [] = 0 := by
  exact ⟨(C8_theorem tNow score100Post []).1 (by with_unfolding_all decide),
    (C8_theorem tNow justCollectedPost []).2.1 (by with_unfolding_all decide),
    (C8_theorem tNow score100Post []).2.2⟩

/-- C8 (counterexample): with a single post collected exactly now
(`time_span = 0`) the source exports rate 0, while the claim's formula
`total / max(time_span_hours, 1)` gives 1. -/
theorem C8_counterexample :
    posting_rate_per_hour tNow [justCollectedPost] = 0
      ∧ ((1 : ℚ) / pyMax ((tNow - justCollectedPost.timestampCollected) / 3600) 1) = 1
      ∧ (0 : ℚ) ≠ 1 := by
  exact ⟨by with_unfolding_all decide, by with_unfolding_all decide,
    by with_unfolding_all decide⟩

/-- C10: hot and rising fetches (sync) and the async hot fetch never
return a stickied post, while the sync and async new fetches apply no
stickied filter — witnessed by a raw listing whose only submission is
stickied.  (`AsyncRedditClient` defines no rising getter, so the rising
clause concerns the synchronous client.) -/
theorem C10_theorem :
    (∀ (now : ℚ) (cat : String) (raws : List Submission),
        (∀ p ∈ get_hot_posts now cat raws, p.stickied = false)
      ∧ (∀ p ∈ get_rising_posts now cat raws, p.stickied = false)
      ∧ (∀ p ∈ async_get_hot_posts now cat raws, p.stickied = false))
    ∧ (∀ (now : ℚ) (cat : String), ∃ raws : List Submission,
        (∃ p ∈ get_new_posts now cat raws, p.stickied = true)
      ∧ (∃ p ∈ async_get_new_posts now cat raws, p.stickied = true)) := by
  constructor
  · intro now cat raws
    refine ⟨?_, ?_, ?_⟩ <;>
    · intro p hp
      simp only [get_hot_posts, get_rising_posts, async_get_hot_posts, List.mem_map,
        List.mem_filter] at hp
      obtain ⟨s, ⟨_, hs⟩, rfl⟩ := hp
      simpa [post_to_dataclass] using hs
  · intro now cat
    refine ⟨[stickiedSub], ⟨post_to_dataclass now cat stickiedSub, ?_, rfl⟩,
      ⟨post_to_dataclass now cat stickiedSub, ?_, rfl⟩⟩ <;>
      simp [get_new_posts, async_get_new_posts]

/-- C7 (amended): ticker extraction scans the uppercased combined text
for `$[A-Z]{1,5}` word-boundary matches and increments the global counter
once *per occurrence* (no per-post dedup); for the claimed input text the
extracted tokens are exactly AAPL, TSLA, F (three distinct tickers, no
partial matches). -/
theorem C7_theorem :
    (∀ (c : String → Nat) (p : RedditPost) (t : String),
        extract_tickers c p t
          = c t + (findTickers (upperChars (combinedContent p))).count t)
      ∧ findTickers (upperChars (combinedContent bullishPost)) = ["AAPL", "TSLA", "F"]
      ∧ (["AAPL", "TSLA", "F"] : List String).Nodup := by
  refine ⟨fun c p t => ?_, by decide, by decide⟩
  unfold extract_tickers
  exact foldl_tickerCount _ c t
    (fun s hs => findTickersAux_mem_length _ _ s hs)

/-- C7 (counterexample): a post mentioning `$AAPL` twice increments the
counter to 2, while the claim's per-post-deduped extraction yields 1. -/
theorem C7_counterexample :
    extract_tickers (fun _ => 0) dupTickerPost "AAPL" = 2
      ∧ claimTickerCounts (fun _ => 0) dupTickerPost "AAPL" = 1
      ∧ (2 : Nat) ≠ 1 := by
  exact ⟨by decide, by decide, by decide⟩

/-- C3 (amended): `avg_score = total_score / post_count` where
`post_count` is the number of *retained* per-subreddit summaries but
`total_score` (like `total_comments`) is a lifetime running sum that cleanup
never reduces; hence with no pruning the exported average is the mean of the
accepted posts' scores (e.g. 100 and 200 give exactly 150), but not after a
pruning cleanup. -/
theorem C3_theorem :
    (∀ (now : ℚ) (sub : String) (posts : List RedditPost),
        (∀ p ∈ posts, p.subreddit = sub) → posts ≠ [] →
        (subInsightOf now sub
            (getAssocD sub SubActivity.dflt (activityAfter now posts))).avgScore
          = roundTo2 (((posts.map RedditPost.score).sum : ℚ) / (posts.length : ℚ)))
      ∧ (∀ (retention now : ℚ) (st : ProcState),
          (cleanup_old_data retention now st).subreddit_activity.map
              (fun e => (e.1, e.2.total_score, e.2.total_comments))
            = st.subreddit_activity.map
                (fun e => (e.1, e.2.total_score, e.2.total_comments))) := by
  constructor
  · intro now sub posts hsub _
    have h := activity_fold_totals posts now sub [] hsub
    show roundTo2
        (((getAssocD sub SubActivity.dflt (activityAfter now posts)).total_score : ℚ)
          / ((getAssocD sub SubActivity.dflt (activityAfter now posts)).posts.length : ℚ))
      = _
    unfold activityAfter at h ⊢
    rw [h.1, h.2]
    simp [getAssocD, SubActivity.dflt]
  · intro retention now st
    simp [cleanup_old_data, List.map_map, Function.comp]

/-- C3 (witness): two accepted posts in r/stocks with scores 100 and 200
and no cleanup give exported `avg_score` exactly 150. -/
theorem C3_witness :
    (subInsightOf tNow "stocks" (getAssocD "stocks" SubActivity.dflt
        (activityAfter tNow [score100Post, score200Post]))).avgScore = 150 := by
  have h := C3_theorem.1 tNow "stocks" [score100Post, score200Post]
      (by intro p hp
          rcases List.mem_cons.mp hp with rfl | hp
          · rfl
          · rcases List.mem_cons.mp hp with rfl | hp
            · rfl
            · simp at hp)
      (by simp)
  rw [h]
  with_unfolding_all decide

/-- C3 (counterexample): after a cleanup that prunes a high-score old
post, the exported `avg_score` is 650 — not the mean 150 of the two retained
posts with scores 100 and 200. -/
theorem C3_counterexample :
    (subInsightOf tNow "stocks"
        (getAssocD "stocks" SubActivity.dflt
          (cleanup_old_data 24 tNow
            (add_posts tNow initialProcState
              [oldScorePost, score100Post, score200Post])).subreddit_activity)).avgScore
        = 650
      ∧ (getAssocD "stocks" SubActivity.dflt
          (cleanup_old_data 24 tNow
            (add_posts tNow initialProcState
              [oldScorePost, score100Post, score200Post])).subreddit_activity).posts.map
          PostSummary.score = [100, 200]
      ∧ roundTo2 (((100 : ℚ) + 200) / 2) = 150
      ∧ (650 : ℚ) ≠ 150 := by
  exact ⟨by with_unfolding_all decide, by with_unfolding_all decide,
    by with_unfolding_all decide, by with_unfolding_all decide⟩

/-- C9 (amended): cleanup prunes the *global* buffer by collection time —
a post collected `retention+1` hours ago is removed and one collected
`retention−1` hours ago is retained — but prunes the per-subreddit summary
lists by the stored `timestamp`, which is the post's `created_utc`, with the
same one-hour boundary relative to creation time. -/
theorem C9_theorem :
    ∀ (retention now : ℚ) (st : ProcState) (p : RedditPost) (s : PostSummary)
      (l : List PostSummary),
      (p ∈ st.posts_buffer → p.timestampCollected = now - (retention + 1) * 3600 →
        p ∉ (cleanup_old_data retention now st).posts_buffer)
      ∧ (p ∈ st.posts_buffer → p.timestampCollected = now - (retention - 1) * 3600 →
        p ∈ (cleanup_old_data retention now st).posts_buffer)
      ∧ ((cleanup_old_data retention now st).subreddit_activity
          = st.subreddit_activity.map (fun e =>
              (e.1,
               { e.2 with
                 posts := e.2.posts.filter (fun s' => now - retention * 3600 < s'.timestamp) })))
      ∧ (s ∈ l → s.timestamp = now - (retention + 1) * 3600 →
          s ∉ l.filter (fun s' => now - retention * 3600 < s'.timestamp))
      ∧ (s ∈ l → s.timestamp = now - (retention - 1) * 3600 →
          s ∈ l.filter (fun s' => now - retention * 3600 < s'.timestamp)) := by
  intro retention now st p s l
  refine ⟨fun hm ht => ?_, fun hm ht => ?_, rfl, fun hm ht => ?_, fun hm ht => ?_⟩
  · intro hc
    simp only [cleanup_old_data, List.mem_filter, decide_eq_true_eq] at hc
    rw [ht] at hc
    linarith [hc.2]
  · simp only [cleanup_old_data, List.mem_filter, decide_eq_true_eq]
    exact ⟨hm, by rw [ht]; linarith⟩
  · intro hc
    simp only [List.mem_filter, decide_eq_true_eq] at hc
    rw [ht] at hc
    linarith [hc.2]
  · simp only [List.mem_filter, decide_eq_true_eq]
    exact ⟨hm, by rw [ht]; linarith⟩

/-- C9 (witness): with the default 24 h window, a post collected 25 h ago
is removed from the global buffer and one collected 23 h ago is retained. -/
theorem C9_witness :
    oldScorePost ∉ (cleanup_old_data 24 tNow c9State).posts_buffer
      ∧ lateCollectedPost ∈ (cleanup_old_data 24 tNow c9State).posts_buffer := by
  constructor
  · exact (C9_theorem 24 tNow c9State oldScorePost ⟨"", 0, 0, 0⟩ []).1
      (by simp [c9State]) (by norm_num [oldScorePost, tNow])
  · exact (C9_theorem 24 tNow c9State lateCollectedPost ⟨"", 0, 0, 0⟩ []).2.1
      (by simp [c9State]) (by norm_num [lateCollectedPost, tNow])

/-- C9 (counterexample): a post collected `retention−1` hours ago (so the
claim says it is retained everywhere) but created `retention+1` hours ago is
kept in the global buffer yet removed from its subreddit's summary list. -/
theorem C9_counterexample :
    (cleanup_old_data 24 tNow
        (add_posts (tNow - 82800) initialProcState [lateCollectedPost])).posts_buffer.map
        RedditPost.id = ["c9a"]
      ∧ (getAssocD "stocks" SubActivity.dflt
          (cleanup_old_data 24 tNow
            (add_posts (tNow - 82800) initialProcState
              [lateCollectedPost])).subreddit_activity).posts = []
      ∧ lateCollectedPost.timestampCollected = tNow - (24 - 1) * 3600 := by
  exact ⟨by with_unfolding_all decide, by with_unfolding_all decide,
    by norm_num [lateCollectedPost, tNow]⟩

/-- C1: within one run every post id is processed and aggregated at most
once — the ids in the aggregation buffer are pairwise distinct after any
sequence of batches from any listing types — and feeding three posts (one per
listing type, same subreddit, two sharing an id) through the pipeline once
aggregates exactly 2 distinct posts and leaves that subreddit's post count at
2 (both in the monitor stats and in the per-subreddit summary list). -/
theorem C1_theorem :
    (∀ (now : ℚ) (batches : List (List RedditPost × String × String)),
        ((runPipeline now batches).processor.posts_buffer.map RedditPost.id).Nodup)
      ∧ (runPipeline tNow scenarioBatches).processor.posts_buffer.map RedditPost.id
          = ["a", "b"]
      ∧ (runPipeline tNow scenarioBatches).processor.posts_buffer.length = 2
      ∧ (getAssocD "stocks" SubStats.dflt
          (runPipeline tNow scenarioBatches).subredditStats).total_posts = 2
      ∧ (getAssocD "stocks" SubActivity.dflt
          (runPipeline tNow scenarioBatches).processor.subreddit_activity).posts.length
          = 2 := by
  refine ⟨fun now batches => (runPipeline_MonitorInv now batches).1,
    by with_unfolding_all decide, by with_unfolding_all decide,
    by with_unfolding_all decide, by with_unfolding_all decide⟩

/-- C2 (counterexample): the seen-id store is *not* bounded by 10,000 and
does not evict: after 20,000 distinct acceptable posts in one batch its size
is 20,000 and the very first id is still present. -/
theorem C2_counterexample :
    (process_posts 0 initialMonitorState (mkPosts 20000) "hot" "s").seenPostIds.length
        = 20000
      ∧ 10000 < 20000
      ∧ natId 0 ∈ (process_posts 0 initialMonitorState (mkPosts 20000) "hot" "s").seenPostIds := by
  have hseen : (process_posts 0 initialMonitorState (mkPosts 20000) "hot" "s").seenPostIds
      = (List.range 20000).map natId := by
    rw [process_posts_seen, c2_seen]
  refine ⟨?_, by norm_num, ?_⟩
  · rw [hseen, List.length_map, List.length_range]
  · rw [hseen]
    exact List.mem_map.mpr ⟨0, List.mem_range.mpr (by norm_num), rfl⟩

/-- C2 (amended): the bounded ring structure of capacity 10,000 evicting
the oldest insertion once full is the monitor's recent-post `deque`
(`post_buffer`), whose size never exceeds 10,000 across processing; the
seen-id store is a plain set that only ever grows. -/
theorem C2_theorem :
    (∀ (m : Nat) (buf : List RedditPost) (p : RedditPost),
        buf.length ≤ m → (dequeAppendMax m buf p).length ≤ m)
      ∧ (∀ (m : Nat) (b : RedditPost) (rest : List RedditPost) (p : RedditPost),
          (b :: rest).length = m → dequeAppendMax m (b :: rest) p = rest ++ [p])
      ∧ (∀ (now : ℚ) (st : MonitorState) (posts : List RedditPost) (ty sub : String),
          st.postBuffer.length ≤ 10000 →
          (process_posts now st posts ty sub).postBuffer.length ≤ 10000)
      ∧ (∀ (now : ℚ) (st : MonitorState) (posts : List RedditPost) (ty sub : String)
          (x : String), x ∈ st.seenPostIds →
          x ∈ (process_posts now st posts ty sub).seenPostIds) := by
  refine ⟨dequeAppendMax_length_le, dequeAppendMax_full, ?_, ?_⟩
  · intro now st posts ty sub h
    rw [process_posts_postBuffer]
    exact foldl_preserve (fun acc => acc.1.postBuffer.length ≤ 10000) _ posts (st, []) h
      (fun a b ha => step_buffer_le now ty sub a b ha)
  · intro now st posts ty sub x hx
    rw [process_posts_seen]
    exact foldl_preserve (fun acc => x ∈ acc.1.seenPostIds) _ posts (st, []) hx
      (fun a b ha => step_seen_mono now ty sub a b x ha)

/-- C2 (witness): concrete instances of the amended statement — an append
below capacity, an eviction at capacity 1, a three-post run keeping the
buffer within bound, and a previously seen id surviving a batch. -/
theorem C2_witness :
    (dequeAppendMax 10000 [] (mkPost 0)).length ≤ 10000
      ∧ dequeAppendMax 1 [mkPost 0] (mkPost 1) = [] ++ [mkPost 1]
      ∧ (process_posts 0 initialMonitorState (mkPosts 3) "hot" "s").postBuffer.length ≤ 10000
      ∧ natId 5 ∈ (process_posts 0
          ⟨[natId 5], [], [], initialProcState⟩ (mkPosts 1) "hot" "s").seenPostIds := by
  refine ⟨C2_theorem.1 10000 [] (mkPost 0) (by simp),
    C2_theorem.2.1 1 (mkPost 0) [] (mkPost 1) (by simp),
    C2_theorem.2.2.1 0 initialMonitorState (mkPosts 3) "hot" "s" ?_,
    C2_theorem.2.2.2 0 _ (mkPosts 1) "hot" "s" (natId 5) ?_⟩
  · show ([] : List RedditPost).length ≤ 10000
    simp
  · exact List.mem_singleton_self _

end RedditApp
